import Mathlib

/-!
Verification of the streaming reducer and invocation facade of the
langgraph-deployment-kit service (src/service/service.py), as a shallow
embedding in Lean 4.

The embedding follows the source closely:
* `handle_input` models `_handle_input` (reserved-key collision check,
  interrupt-resume routing).
* `message_generator` models the async generator backing `POST /stream`:
  the per-event diagnostic frames, the node-update reducer (interrupt
  marker, supervisor collapse, sub-agent-to-tool conversion), the
  partial-message assembler, the echo filter, the token emitter, and the
  try/except/finally framing.
* `invoke_endpoint` models `POST /invoke` (terminal-event extraction).

Python exceptions are modelled with `Except PyErr`; an exception that
propagates out of the generator (raised before its `try` block) is recorded
in `GenResult.escaped`.  The repository's `schema/schema.py` and
`service/utils.py` are not part of the reviewed sources; the definitions
taken from them (`UserInput`, `StreamInput`, `ChatMessage`,
`langchain_to_chat_message`, `remove_tool_calls`) are modelled from the
spec and marked as such.
-/

/-- Python exception kinds that the service code can raise. -/
inductive PyErr
  | httpException (code : Nat)
  | typeError
  | attributeError
  | indexError
  | keyError
  | valueError
  | engineError
deriving DecidableEq, Repr

/-- LangChain message objects as consumed by the reducer
(`HumanMessage`, `AIMessage`, `AIMessageChunk`, `ToolMessage`, plus an
opaque object that `langchain_to_chat_message` rejects).  `aiChunk` is an
instance of the AI class (`AIMessageChunk` subclasses `AIMessage`). -/
inductive LCMessage
  | human (content : String)
  | ai (content : String)
  | aiChunk (content : String)
  | tool (content : String) (name : String) (tool_call_id : String)
  | unconvertible (tyName : String) (content : String)
deriving DecidableEq, Repr

/-- The `content` attribute of a message object. -/
def LCMessage.content : LCMessage → String
  | .human c => c
  | .ai c => c
  | .aiChunk c => c
  | .tool c _ _ => c
  | .unconvertible _ c => c

/-- `isinstance(msg, AIMessage)` (chunks are instances of `AIMessage`). -/
def LCMessage.isAI : LCMessage → Bool
  | .ai _ => true
  | .aiChunk _ => true
  | _ => false

/-- `isinstance(msg, AIMessageChunk)`. -/
def LCMessage.isAIChunk : LCMessage → Bool
  | .aiChunk _ => true
  | _ => false

/-- A value carried by a `(field_name, value)` stream fragment: either a
plain string (e.g. a `content` part) or some other payload identified by a
type tag. -/
inductive FragVal
  | str (s : String)
  | other (tag : String)
deriving DecidableEq, Repr

/-- One element of the `new_messages` candidate list: a complete message
object or a tuple-shaped fragment `(field_name, value)`. -/
inductive MsgItem
  | msg (m : LCMessage)
  | frag (key : String) (val : FragVal)
deriving DecidableEq, Repr

/-- `isinstance(item, AIMessage)` on a candidate item (a tuple never is). -/
def MsgItem.isAIMessage : MsgItem → Bool
  | .msg m => m.isAI
  | .frag _ _ => false

/-- A simple Python value appearing inside a node-update delta (anything
that is not a message object): its JSON-serializability and `len()`
behaviour are what the service code observes.  `obj` stands for any other
object, with `len?` giving the result of `len()` when supported. -/
inductive SVal
  | str (s : String)
  | intV (n : Int)
  | listV (len : Nat) (serializable : Bool)
  | obj (tyName : String) (serializable : Bool) (len? : Option Nat)
deriving DecidableEq, Repr

/-- `type(value).__name__`. -/
def SVal.tyName : SVal → String
  | .str _ => "str"
  | .intV _ => "int"
  | .listV _ _ => "list"
  | .obj t _ _ => t

/-- Whether `json.dumps(value)` succeeds. -/
def SVal.serializable : SVal → Bool
  | .str _ => true
  | .intV _ => true
  | .listV _ s => s
  | .obj _ s _ => s

/-- The result of `len(value)`: `none` means `len` raises `TypeError`. -/
def SVal.pyLen : SVal → Option Nat
  | .str s => some s.length
  | .intV _ => none
  | .listV n _ => some n
  | .obj _ _ l => l

/-- Python truthiness of the value. -/
def SVal.truthy : SVal → Bool
  | .str s => !s.isEmpty
  | .intV n => n != 0
  | .listV n _ => n != 0
  | .obj _ _ l =>
    match l with
    | some n => n != 0
    | none => true

/-- A dict-shaped node-state delta: the optional `"messages"` entry (a
list of candidate message items) and the remaining key/value entries. -/
structure StateDelta where
  messages : Option (List MsgItem)
  others : List (String × SVal)
deriving DecidableEq, Repr

/-- Number of keys of the delta dict. -/
def StateDelta.size (d : StateDelta) : Nat :=
  (if d.messages.isSome then 1 else 0) + d.others.length

/-- The value attached to one node in an `"updates"` stream event:
`None`, a state-delta dict, a list of `Interrupt` objects (as produced for
the `__interrupt__` marker node), or some other raw value. -/
inductive UpdVal
  | nil
  | state (d : StateDelta)
  | interrupts (vals : List String)
  | raw (v : SVal)
deriving DecidableEq, Repr

/-- Python truthiness of the update value. -/
def UpdVal.truthy : UpdVal → Bool
  | .nil => false
  | .state d => d.size != 0
  | .interrupts vs => !vs.isEmpty
  | .raw v => v.truthy

/-- `updates is not None and len(updates) > 0` (line 244 / line 254):
errors when the value does not support `len()`. -/
def hasUpdatesE : UpdVal → Except PyErr Bool
  | .nil => .ok false
  | .state d => .ok (d.size != 0)
  | .interrupts vs => .ok (!vs.isEmpty)
  | .raw v =>
    match v.pyLen with
    | some n => .ok (n != 0)
    | none => .error .typeError

/-- `(updates or {}).get("messages", [])` (lines 269-270): raises
`AttributeError` when a truthy non-dict value has no `get` method. -/
def getUpdateMessages : UpdVal → Except PyErr (List MsgItem)
  | .nil => .ok []
  | .state d => .ok (d.messages.getD [])
  | .interrupts vs => if vs.isEmpty then .ok [] else .error .attributeError
  | .raw v => if v.truthy then .error .attributeError else .ok []

/-- `for interrupt in updates: ... AIMessage(content=interrupt.value)`
(lines 265-268): iterating the raw update value of the `__interrupt__`
node.  Non-iterable values raise `TypeError`; iterables whose elements
have no `value` attribute raise `AttributeError` at the first element. -/
def interruptMessages : UpdVal → Except PyErr (List MsgItem)
  | .interrupts vs => .ok (vs.map fun v => .msg (.ai v))
  | .nil => .error .typeError
  | .state d => if d.size == 0 then .ok [] else .error .attributeError
  | .raw (.str s) => if s.isEmpty then .ok [] else .error .attributeError
  | .raw (.intV _) => .error .typeError
  | .raw (.listV n _) => if n == 0 then .ok [] else .error .attributeError
  | .raw (.obj _ _ _) => .error .typeError

/-- `_get_message_type` (lines 404-416): class-name based tagging of one
item of a delta's `messages` list. -/
def get_message_type : MsgItem → String
  | .msg (.human _) => "human"
  | .msg (.ai _) => "ai"
  | .msg (.aiChunk _) => "ai"
  | .msg (.tool _ _ _) => "tool"
  | .msg (.unconvertible ty _) => ty
  | .frag _ _ => "tuple"

/-- `_get_message_content` (lines 419-440): a tuple has no `content`
attribute, every modelled message object carries a string content. -/
def get_message_content : MsgItem → String
  | .msg m => m.content
  | .frag _ _ => "[No content]"

/-- One value of the simplified, JSON-safe representation produced by
`_simplify_node_updates`. -/
inductive SimpVal
  | msgList (items : List (String × String))
  | pass (v : SVal)
  | placeholder (text : String)
deriving DecidableEq, Repr

/-- `_simplify_node_updates` (lines 356-401). -/
def simplify_node_updates : UpdVal → List (String × SimpVal)
  | .nil => []
  | .state d =>
    (match d.messages with
     | some l =>
       [("messages", SimpVal.msgList (l.map fun i => (get_message_type i, get_message_content i)))]
     | none => [])
    ++ d.others.map fun kv =>
      (kv.1,
       if kv.2.serializable then SimpVal.pass kv.2
       else SimpVal.placeholder ("[Complex data: " ++ kv.2.tyName ++ "]"))
  | .interrupts vs =>
    if vs.isEmpty then [("value", SimpVal.pass (SVal.listV 0 true))]
    else [("value", SimpVal.placeholder "[Complex data: list]")]
  | .raw v =>
    if v.serializable then [("value", SimpVal.pass v)]
    else [("value", SimpVal.placeholder ("[Complex data: " ++ v.tyName ++ "]"))]

/-- A client-facing chat message.  Modelled from the spec: role
(`human`/`ai`/`tool`/`system`), content, the tool-name tag that sub-agent
tool responses carry, and the optional originating-run identifier
(`schema/schema.py` is not among the reviewed sources). -/
structure ChatMessage where
  type : String
  content : String
  name : Option String := none
  run_id : Option String := none
deriving DecidableEq, Repr

/-- Modelled from the spec: `langchain_to_chat_message` of the missing
`service/utils.py` — "Each resulting complete message is converted to a
ChatMessage"; conversion of an unsupported object raises. -/
def langchain_to_chat_message : LCMessage → Except PyErr ChatMessage
  | .human c => .ok { type := "human", content := c }
  | .ai c => .ok { type := "ai", content := c }
  | .aiChunk c => .ok { type := "ai", content := c }
  | .tool c n _ => .ok { type := "tool", content := c, name := some n }
  | .unconvertible _ _ => .error .valueError

/-- Modelled from the spec: `remove_tool_calls` of the missing
`service/utils.py` strips tool-call-only parts; on the plain string
contents modelled here it returns the content unchanged. -/
def remove_tool_calls (content : String) : String := content

/-- A frame written to the SSE stream (`data: ...\n\n`). -/
inductive Frame
  | nodeUpdate (node : String) (has_updates : Bool)
      (updates : List (String × SimpVal)) (run_id : String)
  | nodeUpdateFallback (node : String) (has_updates : Bool) (run_id : String)
  | errorFrame (content : String)
  | message (cm : ChatMessage)
  | token (content : String)
  | done
deriving DecidableEq, Repr

/-- Frames produced by the node-update diagnostic loop (lines 238-258). -/
def Frame.isDiagnostic : Frame → Bool
  | .nodeUpdate _ _ _ _ => true
  | .nodeUpdateFallback _ _ _ => true
  | _ => false

/-- The body of the `try` at lines 240-248: build and yield the full
`node_update` frame (fails when `len(updates)` raises). -/
def tryNodeUpdateFrame (run_id node : String) (u : UpdVal) : Except PyErr Frame :=
  match hasUpdatesE u with
  | .ok h => .ok (Frame.nodeUpdate node h (simplify_node_updates u) run_id)
  | .error e => .error e

/-- The `except` handler at lines 249-258: the fallback frame recomputes
`updates is not None and len(updates) > 0`, so it raises again for a
value without `len()`. -/
def fallbackNodeUpdateFrame (run_id node : String) (u : UpdVal) : Except PyErr Frame :=
  match hasUpdatesE u with
  | .ok h => .ok (Frame.nodeUpdateFallback node h run_id)
  | .error e => .error e

/-- One iteration of the diagnostic loop: try, falling back on error. -/
def nodeUpdateFrame (run_id node : String) (u : UpdVal) : Except PyErr Frame :=
  match tryNodeUpdateFrame run_id node u with
  | .ok f => .ok f
  | .error _ => fallbackNodeUpdateFrame run_id node u

/-- The diagnostic loop over `event.items()`: frames yielded so far and
the exception that aborted it, if any. -/
def runDiag (run_id : String) : List (String × UpdVal) → List Frame × Option PyErr
  | [] => ([], none)
  | (node, u) :: rest =>
    match nodeUpdateFrame run_id node u with
    | .ok f =>
      let r := runDiag run_id rest
      (f :: r.1, r.2)
    | .error e => ([], some e)

/-- Lines 271-276: a `supervisor` node keeps only its last AI message,
if it produced any. -/
def supervisorFilter (msgs : List MsgItem) : List MsgItem :=
  match (msgs.filter MsgItem.isAIMessage).getLast? with
  | some m => [m]
  | none => msgs

/-- Lines 277-285: a sub-agent node's output becomes a single
`ToolMessage(content=update_messages[0].content, name=node)`; an empty
list raises `IndexError`, a leading tuple raises `AttributeError`. -/
def subAgentMessages (node : String) (msgs : List MsgItem) : Except PyErr (List MsgItem) :=
  match msgs.head? with
  | none => .error .indexError
  | some (.frag _ _) => .error .attributeError
  | some (.msg m) => .ok [.msg (.tool m.content node "")]

/-- Lines 260-286, one `(node, updates)` pair: the candidate messages it
contributes to `new_messages`. -/
def collectNodeMessages (node : String) (u : UpdVal) : Except PyErr (List MsgItem) :=
  if node == "__interrupt__" then interruptMessages u
  else
    match getUpdateMessages u with
    | .error e => .error e
    | .ok msgs0 =>
      let msgs1 := if node == "supervisor" then supervisorFilter msgs0 else msgs0
      if node == "research_expert" || node == "math_expert" then subAgentMessages node msgs1
      else .ok msgs1

/-- The collection loop over all pairs of one `"updates"` event. -/
def collectNewMessages : List (String × UpdVal) → Except PyErr (List MsgItem)
  | [] => .ok []
  | (node, u) :: rest =>
    match collectNodeMessages node u with
    | .error e => .error e
    | .ok ms =>
      match collectNewMessages rest with
      | .error e => .error e
      | .ok rest' => .ok (ms ++ rest')

/-- `inspect.signature(AIMessage)` parameter names used by
`_create_ai_message` to filter accumulated parts. -/
def validAIKeys : List String :=
  ["content", "additional_kwargs", "response_metadata", "type", "name", "id",
   "example", "tool_calls", "invalid_tool_calls", "usage_metadata"]

/-- `current_message[key] = value`: dict insertion/overwrite preserving
insertion order. -/
def dictSet (d : List (String × FragVal)) (k : String) (v : FragVal) :
    List (String × FragVal) :=
  if d.any (fun kv => kv.1 == k) then
    d.map fun kv => if kv.1 == k then (kv.1, v) else kv
  else d ++ [(k, v)]

/-- The string content stored under a key of the parts dict (empty when
absent or not a string). -/
def lookupStr (d : List (String × FragVal)) (k : String) : String :=
  match d.find? (fun kv => kv.1 == k) with
  | some (_, .str s) => s
  | _ => ""

/-- `_create_ai_message` (lines 349-353): keep only valid `AIMessage`
parameters and build the message. -/
def create_ai_message (parts : List (String × FragVal)) : LCMessage :=
  LCMessage.ai (lookupStr (parts.filter fun kv => validAIKeys.contains kv.1) "content")

/-- The partial-message assembler loop (lines 295-311): `acc` is
`processed_messages`, `cur` is `current_message`; the final flush of a
pending `cur` is the `if current_message:` after the loop. -/
def assembleGo : List LCMessage → List (String × FragVal) → List MsgItem → List LCMessage
  | acc, cur, [] => if cur.isEmpty then acc else acc ++ [create_ai_message cur]
  | acc, cur, .frag k v :: rest => assembleGo acc (dictSet cur k v) rest
  | acc, cur, .msg m :: rest =>
    if cur.isEmpty then assembleGo (acc ++ [m]) [] rest
    else assembleGo (acc ++ [create_ai_message cur, m]) [] rest

/-- `processed_messages` computed from `new_messages`. -/
def assemble (items : List MsgItem) : List LCMessage :=
  assembleGo [] [] items

/-- `chat_message.run_id = str(run_id)` (line 316). -/
def setRunId (run_id : String) (cm : ChatMessage) : ChatMessage :=
  { cm with run_id := some run_id }

/-- The emission loop (lines 313-324): convert each processed message,
attach the run id, drop the engine's echo of the user input, and frame
the rest; a conversion failure yields an error frame and continues. -/
def emitMessages (userMsg run_id : String) : List LCMessage → List Frame
  | [] => []
  | m :: rest =>
    match langchain_to_chat_message m with
    | .error _ => Frame.errorFrame "Unexpected error" :: emitMessages userMsg run_id rest
    | .ok cm0 =>
      if (setRunId run_id cm0).type == "human" && (setRunId run_id cm0).content == userMsg then
        emitMessages userMsg run_id rest
      else Frame.message (setRunId run_id cm0) :: emitMessages userMsg run_id rest

/-- `UserInput`.  Modelled from the spec: message, optional thread id,
optional user id, optional model override, optional free-form
`agent_config` map (`schema/schema.py` is not among the reviewed
sources). -/
structure UserInput where
  message : String
  thread_id : Option String := none
  user_id : Option String := none
  model : Option String := none
  agent_config : Option (List (String × SVal)) := none
deriving DecidableEq, Repr

/-- `StreamInput`.  Modelled from the spec: `UserInput` plus
`stream_tokens` (default true) and `stream_node_updates`; the code tests
the latter with `is not False`, so it is tri-state. -/
structure StreamInput extends UserInput where
  stream_tokens : Bool := true
  stream_node_updates : Option Bool := none
deriving DecidableEq, Repr

/-- Python truthiness of an optional string field (`if user_input.model:`,
`if user_id:`). -/
def truthyOpt : Option String → Bool
  | some s => !s.isEmpty
  | none => false

/-- The keys of the `configurable` dict built at lines 117-128:
`thread_id` always (line 114 always produces a string), `model` and
`user_id` only when the corresponding field is truthy. -/
def configurableKeys (u : UserInput) : List String :=
  ["thread_id"]
  ++ (if truthyOpt u.model then ["model"] else [])
  ++ (if truthyOpt u.user_id then ["user_id"] else [])

/-- The keys of the request's `agent_config` map. -/
def agentConfigKeys (u : UserInput) : List String :=
  (u.agent_config.getD []).map Prod.fst

/-- The input payload prepared for the engine: a resume command or a
fresh human message. -/
inductive InputPayload
  | resume (message : String)
  | fresh (message : String)
deriving DecidableEq, Repr

/-- A stream event as yielded by `agent.astream(stream_mode=["updates",
"messages", "custom"])`: `(mode, payload)` tuples, or a non-tuple item
that line 231 skips. -/
inductive StreamEvent
  | updates (pairs : List (String × UpdVal))
  | messagesEv (chunk : LCMessage) (tags : List String)
  | custom (item : MsgItem)
  | nonTuple
deriving DecidableEq, Repr

/-- One `(mode, payload)` tuple of the list returned by
`agent.ainvoke(stream_mode=["updates", "values"])`: a `"values"` event
carrying the state's message list, or an `"updates"` event whose dict
contains the `__interrupt__` key (with the interrupts' values) or not. -/
inductive InvokeEvent
  | values (msgs : List LCMessage)
  | updates (interrupts : Option (List String))
deriving DecidableEq, Repr

/-- The execution engine as the service observes it: the current-state
interrupt check (`aget_state`, which may itself raise), the event
sequence from `astream` (with `streamFails` marking an exception raised
by the engine after those events), and the `ainvoke` result. -/
structure Engine where
  stateInterrupted : Bool := false
  getStateFails : Bool := false
  streamFails : Bool := false
  invokeFails : Bool := false
  events : List StreamEvent := []
  invokeEvents : List InvokeEvent := []
deriving DecidableEq, Repr

/-- `_handle_input` (lines 108-173): raise 422 when a truthy
`agent_config` shares keys with the `configurable` dict built so far,
then consult the engine's state to route resume-vs-fresh input. -/
def handle_input (u : UserInput) (eng : Engine) : Except PyErr InputPayload :=
  let cfgRaise :=
    match u.agent_config with
    | some l =>
      if l.isEmpty then false
      else !((configurableKeys u).filter fun k => (l.map Prod.fst).contains k).isEmpty
    | none => false
  if cfgRaise then .error (.httpException 422)
  else if eng.getStateFails then .error .engineError
  else .ok (if eng.stateInterrupted then .resume u.message else .fresh u.message)

/-- The diagnostic phase of an `"updates"` event (lines 237-258), run
only when `stream_node_updates is not False`. -/
def updDiagPhase (si : StreamInput) (run_id : String) (pairs : List (String × UpdVal)) :
    List Frame × Option PyErr :=
  if si.stream_node_updates ≠ some false then runDiag run_id pairs else ([], none)

/-- Full processing of one stream event: the frames it yields and the
exception that aborted it, if any (frames yielded before the exception
are kept, matching generator semantics). -/
def processEvent (si : StreamInput) (run_id : String) : StreamEvent → List Frame × Option PyErr
  | .nonTuple => ([], none)
  | .updates pairs =>
    let d := updDiagPhase si run_id pairs
    match d.2 with
    | some e => (d.1, some e)
    | none =>
      match collectNewMessages pairs with
      | .error e => (d.1, some e)
      | .ok items => (d.1 ++ emitMessages si.message run_id (assemble items), none)
  | .custom item => (emitMessages si.message run_id (assemble [item]), none)
  | .messagesEv chunk tags =>
    if !si.stream_tokens then ([], none)
    else if tags.contains "skip_stream" then ([], none)
    else if !chunk.isAIChunk then ([], none)
    else
      let c := remove_tool_calls chunk.content
      if c.isEmpty then ([], none) else ([Frame.token c], none)

/-- The `async for` loop over the engine's events, stopping at the first
exception. -/
def runEvents (si : StreamInput) (run_id : String) : List StreamEvent → List Frame × Option PyErr
  | [] => ([], none)
  | ev :: rest =>
    match processEvent si run_id ev with
    | (fs, some e) => (fs, some e)
    | (fs, none) =>
      let r := runEvents si run_id rest
      (fs ++ r.1, r.2)

/-- What the generator produced: the frames it yielded and the exception
that propagated out of it, if any. -/
structure GenResult where
  frames : List Frame
  escaped : Option PyErr
deriving DecidableEq, Repr

/-- `message_generator` (lines 215-346).  `get_agent` and `_handle_input`
(lines 223-224) run before the `try`, so their exceptions escape the
generator; inside the `try`, any exception yields an error frame, and the
`finally` always yields the `[DONE]` sentinel. -/
def message_generator (agents : List String) (agent_id : String) (si : StreamInput)
    (eng : Engine) (run_id : String) : GenResult :=
  if agents.contains agent_id then
    match handle_input si.toUserInput eng with
    | .error e => { frames := [], escaped := some e }
    | .ok _ =>
      let rr := runEvents si run_id eng.events
      match rr.2 with
      | some _ =>
        { frames := rr.1 ++ [Frame.errorFrame "Internal server error", Frame.done],
          escaped := none }
      | none =>
        if eng.streamFails then
          { frames := rr.1 ++ [Frame.errorFrame "Internal server error", Frame.done],
            escaped := none }
        else { frames := rr.1 ++ [Frame.done], escaped := none }
  else { frames := [], escaped := some PyErr.keyError }

/-- Lines 194-209: extract the response from the terminal event of
`response_events` and attach the run id. -/
def invokeResult (run_id : String) (evs : List InvokeEvent) : Except PyErr ChatMessage :=
  match evs.getLast? with
  | none => .error .indexError
  | some (.values msgs) =>
    match msgs.getLast? with
    | none => .error .indexError
    | some m =>
      match langchain_to_chat_message m with
      | .error e => .error e
      | .ok cm => .ok { cm with run_id := some run_id }
  | some (.updates (some ivals)) =>
    match ivals.head? with
    | none => .error .indexError
    | some v =>
      match langchain_to_chat_message (.ai v) with
      | .error e => .error e
      | .ok cm => .ok { cm with run_id := some run_id }
  | some (.updates none) => .error .valueError

/-- The outcome of `POST /invoke`: a ChatMessage, an HTTP error response
(an `HTTPException` rendered by the framework), or an exception that
escaped the handler. -/
inductive InvokeOutcome
  | ok (cm : ChatMessage)
  | httpError (code : Nat) (detail : String)
  | escaped (e : PyErr)
deriving DecidableEq, Repr

/-- `invoke` (lines 176-212): `get_agent` and `_handle_input` run before
the `try`; any exception inside the `try` is logged and surfaced as a 500
"Unexpected error". -/
def invoke_endpoint (agents : List String) (agent_id : String) (u : UserInput)
    (eng : Engine) (run_id : String) : InvokeOutcome :=
  if agents.contains agent_id then
    match handle_input u eng with
    | .error (PyErr.httpException c) =>
      InvokeOutcome.httpError c "agent_config contains reserved keys"
    | .error e => InvokeOutcome.escaped e
    | .ok _ =>
      if eng.invokeFails then InvokeOutcome.httpError 500 "Unexpected error"
      else
        match invokeResult run_id eng.invokeEvents with
        | .ok cm => InvokeOutcome.ok cm
        | .error _ => InvokeOutcome.httpError 500 "Unexpected error"
  else InvokeOutcome.escaped PyErr.keyError

/-- Classification of every frame the event loop can yield: a
diagnostic frame, a per-message conversion error frame, a token frame,
or a message frame that passed the input-echo filter. -/
def goodFrame (userMsg : String) (f : Frame) : Prop :=
  f.isDiagnostic = true
  ∨ f = Frame.errorFrame "Unexpected error"
  ∨ (∃ c, f = Frame.token c)
  ∨ ∃ cm, f = Frame.message cm ∧ (cm.type == "human" && cm.content == userMsg) = false

/-- A frame is not a `message` frame echoing the user's input. -/
def notEchoFrame (userMsg : String) : Frame → Bool
  | Frame.message cm => !(cm.type == "human" && cm.content == userMsg)
  | _ => true

/-- A run of tuple-shaped fragments, as candidate items. -/
def fragItems (fs : List (String × FragVal)) : List MsgItem :=
  fs.map fun kv => MsgItem.frag kv.1 kv.2

/-- The parts dict obtained by accumulating a run of fragments. -/
def buildDict (fs : List (String × FragVal)) : List (String × FragVal) :=
  fs.foldl (fun d kv => dictSet d kv.1 kv.2) []

/-- A stream request whose `agent_config` collides with the always-present
reserved key `thread_id`. -/
def reservedStreamInput : StreamInput :=
  { message := "hi", agent_config := some [("thread_id", SVal.str "t-override")] }

/-- A plain stream request with no optional fields. -/
def plainStreamInput : StreamInput := { message := "hi" }

/-- An engine with no stream events and a single terminal `values` event. -/
def valuesEngine : Engine := { invokeEvents := [InvokeEvent.values [LCMessage.ai "answer"]] }

/-- An invoke request whose `agent_config` carries `user_id` while the
top-level `user_id` field is absent. -/
def userIdConfigInput : UserInput :=
  { message := "hi", agent_config := some [("user_id", SVal.str "u-1")] }

/-- Stream events whose first node-update value is an integer (truthy,
JSON-serializable, but without `len()` support), followed by an update
that would surface a message. -/
def intUpdateEvents : List StreamEvent :=
  [ StreamEvent.updates [("node_a", UpdVal.raw (SVal.intV 5))],
    StreamEvent.updates
      [("node_b", UpdVal.state { messages := some [MsgItem.msg (LCMessage.ai "later")], others := [] })] ]

/-- A supervisor node update carrying two AI messages around a tool
message. -/
def supMsgs : List MsgItem :=
  [MsgItem.msg (LCMessage.ai "a1"), MsgItem.msg (LCMessage.tool "t" "calc" ""),
   MsgItem.msg (LCMessage.ai "a2")]

/-- The supervisor delta holding `supMsgs`. -/
def supUpdate : UpdVal := UpdVal.state { messages := some supMsgs, others := [] }

/-- A sub-agent node update carrying one AI message. -/
def subAgentUpdate : UpdVal :=
  UpdVal.state { messages := some [MsgItem.msg (LCMessage.ai "found it")], others := [] }

/-- A sub-agent node update whose delta has an empty message list. -/
def emptySubAgentUpd : UpdVal := UpdVal.state { messages := some [], others := [] }

/-- An engine whose stream yields the empty sub-agent update and then a
custom event that would surface a message. -/
def emptySubAgentEngine : Engine :=
  { events := [StreamEvent.updates [("research_expert", emptySubAgentUpd)],
               StreamEvent.custom (MsgItem.msg (LCMessage.ai "never"))] }

/-! ### Helper lemmas about the frames the event loop can yield -/

theorem nodeUpdateFrame_isDiagnostic (r n : String) (u : UpdVal) (f : Frame)
    (h : nodeUpdateFrame r n u = .ok f) : f.isDiagnostic = true := by
  cases hu : hasUpdatesE u with
  | ok b =>
    simp only [nodeUpdateFrame, tryNodeUpdateFrame, hu] at h
    cases h
    rfl
  | error e =>
    simp [nodeUpdateFrame, tryNodeUpdateFrame, fallbackNodeUpdateFrame, hu] at h

theorem runDiag_mem_isDiagnostic (r : String) (pairs : List (String × UpdVal)) (f : Frame)
    (hf : f ∈ (runDiag r pairs).1) : f.isDiagnostic = true := by
  induction pairs with
  | nil => simp [runDiag] at hf
  | cons p rest ih =>
    obtain ⟨n, u⟩ := p
    cases h : nodeUpdateFrame r n u with
    | ok fr =>
      simp only [runDiag, h] at hf
      rcases List.mem_cons.mp hf with rfl | hf
      · exact nodeUpdateFrame_isDiagnostic r n u _ h
      · exact ih hf
    | error e => simp [runDiag, h] at hf

theorem updDiagPhase_mem (si : StreamInput) (r : String) (pairs : List (String × UpdVal))
    (f : Frame) (hf : f ∈ (updDiagPhase si r pairs).1) : f.isDiagnostic = true := by
  unfold updDiagPhase at hf
  split at hf
  · exact runDiag_mem_isDiagnostic r pairs f hf
  · simp at hf

theorem emitMessages_mem (userMsg run_id : String) (msgs : List LCMessage) (f : Frame)
    (hf : f ∈ emitMessages userMsg run_id msgs) :
    f = Frame.errorFrame "Unexpected error" ∨
      ∃ cm, f = Frame.message cm ∧ (cm.type == "human" && cm.content == userMsg) = false := by
  induction msgs with
  | nil => simp [emitMessages] at hf
  | cons m rest ih =>
    cases h : langchain_to_chat_message m with
    | error e =>
      simp only [emitMessages, h] at hf
      rcases List.mem_cons.mp hf with rfl | hf
      · exact Or.inl rfl
      · exact ih hf
    | ok cm0 =>
      simp only [emitMessages, h] at hf
      split at hf
      · exact ih hf
      · next hneg =>
          rcases List.mem_cons.mp hf with rfl | hf
          · exact Or.inr ⟨setRunId run_id cm0, rfl, by simpa using hneg⟩
          · exact ih hf

theorem processEvent_mem (si : StreamInput) (r : String) (ev : StreamEvent) (f : Frame)
    (hf : f ∈ (processEvent si r ev).1) : goodFrame si.message f := by
  cases ev with
  | nonTuple => simp [processEvent] at hf
  | updates pairs =>
    simp only [processEvent] at hf
    cases hd : (updDiagPhase si r pairs).2 with
    | some e =>
      simp only [hd] at hf
      exact Or.inl (updDiagPhase_mem si r pairs f hf)
    | none =>
      simp only [hd] at hf
      cases hc : collectNewMessages pairs with
      | error e =>
        simp only [hc] at hf
        exact Or.inl (updDiagPhase_mem si r pairs f hf)
      | ok items =>
        simp only [hc] at hf
        rcases List.mem_append.mp hf with h | h
        · exact Or.inl (updDiagPhase_mem si r pairs f h)
        · rcases emitMessages_mem si.message r _ f h with h1 | h1
          · exact Or.inr (Or.inl h1)
          · exact Or.inr (Or.inr (Or.inr h1))
  | custom item =>
    simp only [processEvent] at hf
    rcases emitMessages_mem si.message r _ f hf with h1 | h1
    · exact Or.inr (Or.inl h1)
    · exact Or.inr (Or.inr (Or.inr h1))
  | messagesEv chunk tags =>
    simp only [processEvent] at hf
    split at hf
    · simp at hf
    · split at hf
      · simp at hf
      · split at hf
        · simp at hf
        · split at hf
          · simp at hf
          · simp at hf
            exact Or.inr (Or.inr (Or.inl ⟨_, hf⟩))

theorem runEvents_mem (si : StreamInput) (r : String) (evs : List StreamEvent) (f : Frame)
    (hf : f ∈ (runEvents si r evs).1) : goodFrame si.message f := by
  induction evs with
  | nil => simp [runEvents] at hf
  | cons ev rest ih =>
    cases hp : processEvent si r ev with
    | mk fs err =>
      cases err with
      | some e =>
        simp only [runEvents, hp] at hf
        exact processEvent_mem si r ev f (by rw [hp]; exact hf)
      | none =>
        simp only [runEvents, hp] at hf
        rcases List.mem_append.mp hf with h | h
        · exact processEvent_mem si r ev f (by rw [hp]; exact h)
        · exact ih h

theorem goodFrame_ne_done (userMsg : String) (f : Frame) (h : goodFrame userMsg f) :
    f ≠ Frame.done := by
  rcases h with h | h | ⟨c, h⟩ | ⟨cm, h, _⟩
  · intro hq; subst hq; simp [Frame.isDiagnostic] at h
  · subst h; simp
  · subst h; simp
  · subst h; simp

theorem runEvents_done_not_mem (si : StreamInput) (r : String) (evs : List StreamEvent) :
    Frame.done ∉ (runEvents si r evs).1 :=
  fun h => goodFrame_ne_done si.message _ (runEvents_mem si r evs _ h) rfl

theorem goodFrame_notEcho (userMsg : String) (f : Frame) (h : goodFrame userMsg f) :
    notEchoFrame userMsg f = true := by
  rcases h with h | h | ⟨c, h⟩ | ⟨cm, h, h2⟩
  · cases f <;> first
      | rfl
      | simp [Frame.isDiagnostic] at h
  · subst h; rfl
  · subst h; rfl
  · subst h; simp [notEchoFrame, h2]

/-- Characterization of a stream run that got past agent lookup and input
handling: the event-loop frames followed by the error/sentinel tail. -/
theorem message_generator_ok (agents : List String) (agent_id : String) (si : StreamInput)
    (eng : Engine) (run_id : String) (p : InputPayload)
    (hA : agents.contains agent_id = true)
    (hp : handle_input si.toUserInput eng = .ok p) :
    message_generator agents agent_id si eng run_id =
      if (runEvents si run_id eng.events).2 = none ∧ eng.streamFails = false then
        { frames := (runEvents si run_id eng.events).1 ++ [Frame.done], escaped := none }
      else
        { frames := (runEvents si run_id eng.events).1
            ++ [Frame.errorFrame "Internal server error", Frame.done],
          escaped := none } := by
  unfold message_generator
  rw [if_pos hA, hp]
  cases herr : (runEvents si run_id eng.events).2 with
  | some e => simp [herr]
  | none =>
    cases hsf : eng.streamFails with
    | true => simp [herr, hsf]
    | false => simp [herr, hsf]

/-- C1 (amended): for every /stream request that passes agent lookup and
input handling, the emitted stream ends with exactly one `[DONE]`
sentinel frame (the sentinel appears nowhere else); no exception escapes
the generator; and whenever event processing raises (or the engine's
stream itself fails), an `error` frame is emitted right before the
sentinel.  Requests that fail before the event loop (during agent lookup
or input handling) are excluded: they propagate the exception and emit no
frames at all. -/
theorem c1_stream_done_sentinel (agents : List String) (agent_id : String) (si : StreamInput)
    (eng : Engine) (run_id : String)
    (hA : agents.contains agent_id = true)
    (hH : ∃ p, handle_input si.toUserInput eng = .ok p) :
    ∃ fs, (message_generator agents agent_id si eng run_id).frames = fs ++ [Frame.done]
      ∧ Frame.done ∉ fs
      ∧ (message_generator agents agent_id si eng run_id).escaped = none
      ∧ (¬((runEvents si run_id eng.events).2 = none ∧ eng.streamFails = false) →
          fs = (runEvents si run_id eng.events).1 ++ [Frame.errorFrame "Internal server error"]) := by
  obtain ⟨p, hp⟩ := hH
  have hnd := runEvents_done_not_mem si run_id eng.events
  rw [message_generator_ok agents agent_id si eng run_id p hA hp]
  by_cases hok : (runEvents si run_id eng.events).2 = none ∧ eng.streamFails = false
  · rw [if_pos hok]
    exact ⟨(runEvents si run_id eng.events).1, rfl, hnd, rfl, fun hc => absurd hok hc⟩
  · rw [if_neg hok]
    refine ⟨(runEvents si run_id eng.events).1 ++ [Frame.errorFrame "Internal server error"],
      by simp, ?_, rfl, fun _ => rfl⟩
    intro hmem
    rcases List.mem_append.mp hmem with h | h
    · exact hnd h
    · simp at h

/-- C1 witness: a successful concrete stream run satisfying the
hypotheses of the amended sentinel theorem. -/
theorem c1_stream_done_sentinel_witness :
    ∃ fs, (message_generator ["research-assistant"] "research-assistant" plainStreamInput
        {} "run-1").frames = fs ++ [Frame.done]
      ∧ Frame.done ∉ fs
      ∧ (message_generator ["research-assistant"] "research-assistant" plainStreamInput
          {} "run-1").escaped = none
      ∧ (¬((runEvents plainStreamInput "run-1" (Engine.events {})).2 = none
            ∧ Engine.streamFails {} = false) →
          fs = (runEvents plainStreamInput "run-1" (Engine.events {})).1
            ++ [Frame.errorFrame "Internal server error"]) :=
  c1_stream_done_sentinel ["research-assistant"] "research-assistant" plainStreamInput
    {} "run-1" rfl ⟨InputPayload.fresh "hi", rfl⟩

/-- C1 counterexample: a /stream request that fails during input handling
(reserved `agent_config` key) raises before the generator's try/finally,
so the exception escapes and no frame at all is emitted — in particular
no `[DONE]` sentinel, refuting the claim for requests that fail before
any engine event is consumed. -/
theorem c1_setup_failure_counterexample :
    (message_generator ["research-assistant"] "research-assistant" reservedStreamInput
        {} "run-1").frames = []
    ∧ (message_generator ["research-assistant"] "research-assistant" reservedStreamInput
        {} "run-1").escaped = some (PyErr.httpException 422) := ⟨rfl, rfl⟩

/-- C3: evaluating the streaming reducer at the failing input — a node
update whose value is the integer 5 (truthy, JSON-serializable, but
without `len()`).  The `len(updates)` call in the diagnostic-frame `try`
raises, the fallback `except` handler recomputes `len(updates)` and
raises again, and the whole stream aborts: only the outer error frame and
the sentinel are emitted, and the later event's message "later" is never
surfaced, contradicting local recovery. -/
theorem c3_len_failure_aborts_stream :
    message_generator ["research-assistant"] "research-assistant" plainStreamInput
        { events := intUpdateEvents } "run-1"
      = { frames := [Frame.errorFrame "Internal server error", Frame.done], escaped := none } := by
  rfl

/-! ### Reserved-key collision (C2) -/

theorem handle_input_422 (u : UserInput) (k : String)
    (h1 : k ∈ configurableKeys u) (h2 : k ∈ agentConfigKeys u) :
    ∀ eng, handle_input u eng = .error (PyErr.httpException 422) := by
  intro eng
  cases hc : u.agent_config with
  | none => simp [agentConfigKeys, hc] at h2
  | some l =>
    have hk : k ∈ l.map Prod.fst := by simpa [agentConfigKeys, hc] using h2
    have hne : l ≠ [] := by
      intro hl
      subst hl
      simp at hk
    have hkc : (l.map Prod.fst).contains k = true := List.elem_eq_true_of_mem hk
    have hmem : k ∈ (configurableKeys u).filter fun x => (l.map Prod.fst).contains x :=
      List.mem_filter.mpr ⟨h1, hkc⟩
    have hfil : ((configurableKeys u).filter
        fun x => (l.map Prod.fst).contains x).isEmpty = false := by
      cases hq : (configurableKeys u).filter fun x => (l.map Prod.fst).contains x with
      | nil => rw [hq] at hmem; simp at hmem
      | cons a as => rfl
    have hle : l.isEmpty = false := by
      cases l with
      | nil => cases hne rfl
      | cons a as => rfl
    have hcr : (if l.isEmpty = true then false
        else !((configurableKeys u).filter fun k => (l.map Prod.fst).contains k).isEmpty)
          = true := by
      rw [hle, hfil]
      rfl
    simp only [handle_input, hc, hcr]
    rfl

/-- C2 (amended): a request (to /invoke or /stream) fails with HTTP 422
before the execution engine is invoked exactly when its `agent_config`
shares a key with the `configurable` dict actually built: `thread_id`
always collides; `model` and `user_id` collide only when the
corresponding top-level field is supplied (truthy).  The conclusion holds
for every engine, which shows the failure precedes any engine call.
(Requests whose `agent_config` carries `model` or `user_id` without the
matching top-level field are NOT rejected: the key is merged and the
engine is invoked — see the counterexample.) -/
theorem c2_reserved_key_422 (agents : List String) (agent_id : String) (si : StreamInput)
    (k : String)
    (hA : agents.contains agent_id = true)
    (h1 : k ∈ configurableKeys si.toUserInput)
    (h2 : k ∈ agentConfigKeys si.toUserInput) :
    (∀ eng run_id, invoke_endpoint agents agent_id si.toUserInput eng run_id
        = InvokeOutcome.httpError 422 "agent_config contains reserved keys")
    ∧ (∀ eng run_id, message_generator agents agent_id si eng run_id
        = { frames := [], escaped := some (PyErr.httpException 422) }) := by
  constructor
  · intro eng run_id
    unfold invoke_endpoint
    rw [if_pos hA, handle_input_422 si.toUserInput k h1 h2 eng]
  · intro eng run_id
    unfold message_generator
    rw [if_pos hA, handle_input_422 si.toUserInput k h1 h2 eng]

/-- C2 witness: the always-reserved key `thread_id` in `agent_config`
does produce the 422 on both endpoints, for a concrete engine. -/
theorem c2_reserved_key_422_witness :
    ("thread_id" ∈ configurableKeys reservedStreamInput.toUserInput
      ∧ "thread_id" ∈ agentConfigKeys reservedStreamInput.toUserInput)
    ∧ invoke_endpoint ["research-assistant"] "research-assistant"
        reservedStreamInput.toUserInput valuesEngine "run-1"
      = InvokeOutcome.httpError 422 "agent_config contains reserved keys"
    ∧ message_generator ["research-assistant"] "research-assistant"
        reservedStreamInput valuesEngine "run-1"
      = { frames := [], escaped := some (PyErr.httpException 422) } :=
  ⟨⟨by simp [configurableKeys, reservedStreamInput, truthyOpt],
    by simp [agentConfigKeys, reservedStreamInput]⟩,
   (c2_reserved_key_422 ["research-assistant"] "research-assistant" reservedStreamInput
      "thread_id" rfl
      (by simp [configurableKeys, reservedStreamInput, truthyOpt])
      (by simp [agentConfigKeys, reservedStreamInput])).1 valuesEngine "run-1",
   (c2_reserved_key_422 ["research-assistant"] "research-assistant" reservedStreamInput
      "thread_id" rfl
      (by simp [configurableKeys, reservedStreamInput, truthyOpt])
      (by simp [agentConfigKeys, reservedStreamInput])).2 valuesEngine "run-1"⟩

/-- C2 counterexample: a request whose `agent_config` contains the
reserved key `user_id` but which supplies no top-level `user_id` is not
rejected — no 422 is produced, the key is merged into the configurable
map, the engine is invoked, and the call returns 200 with the engine's
answer.  This refutes the claim's universal "including those that do not
also supply the corresponding top-level model or user_id field". -/
theorem c2_user_id_no_422_counterexample :
    invoke_endpoint ["research-assistant"] "research-assistant" userIdConfigInput
        valuesEngine "run-1"
      = InvokeOutcome.ok { type := "ai", content := "answer", name := none, run_id := some "run-1" } := by
  rfl

/-! ### Partial-message assembler (C4) -/

theorem assembleGo_acc (items : List MsgItem) (acc : List LCMessage)
    (cur : List (String × FragVal)) :
    assembleGo acc cur items = acc ++ assembleGo [] cur items := by
  induction items generalizing acc cur with
  | nil =>
    simp only [assembleGo]
    split
    · simp
    · simp
  | cons it rest ih =>
    cases it with
    | frag k v => simp only [assembleGo]; exact ih _ _
    | msg m =>
      simp only [assembleGo]
      split
      · rw [ih (acc ++ [m]) [], ih ([] ++ [m]) []]
        simp
      · rw [ih (acc ++ [create_ai_message cur, m]) [],
          ih ([] ++ [create_ai_message cur, m]) []]
        simp

theorem assembleGo_frags (fs : List (String × FragVal)) (rest : List MsgItem)
    (acc : List LCMessage) (cur : List (String × FragVal)) :
    assembleGo acc cur (fragItems fs ++ rest)
      = assembleGo acc (fs.foldl (fun d kv => dictSet d kv.1 kv.2) cur) rest := by
  induction fs generalizing cur with
  | nil => simp [fragItems]
  | cons kv fs ih =>
    simp only [fragItems, List.map_cons, List.cons_append, assembleGo, List.foldl_cons]
    exact ih _

theorem dictSet_isEmpty (d : List (String × FragVal)) (k : String) (v : FragVal) :
    (dictSet d k v).isEmpty = false := by
  unfold dictSet
  split
  · next h =>
      cases d with
      | nil => simp at h
      | cons x xs => rfl
  · cases d with
    | nil => rfl
    | cons x xs => rfl

theorem foldl_dictSet_isEmpty (fs : List (String × FragVal)) (cur : List (String × FragVal))
    (h : cur.isEmpty = false) :
    (fs.foldl (fun d kv => dictSet d kv.1 kv.2) cur).isEmpty = false := by
  induction fs generalizing cur with
  | nil => exact h
  | cons kv fs ih => exact ih _ (dictSet_isEmpty _ _ _)

theorem buildDict_isEmpty (fs : List (String × FragVal)) (h : fs ≠ []) :
    (buildDict fs).isEmpty = false := by
  cases fs with
  | nil => cases h rfl
  | cons kv fs =>
    unfold buildDict
    rw [List.foldl_cons]
    exact foldl_dictSet_isEmpty fs _ (dictSet_isEmpty _ _ _)

/-- C4: discipline of the single partial-message accumulator.  (1) A
nonempty run of fragments followed by a complete message is flushed into
exactly one synthesized message appended right before the complete one,
and processing continues on the rest with an empty accumulator; (2) with
no pending fragments, a complete message is appended directly; (3) a
still-pending accumulator at the end of the candidate list is flushed as
one synthesized message.  Together: every maximal fragment run
contributes exactly one synthesized message, in order. -/
theorem c4_accumulator_flush :
    (∀ (fs : List (String × FragVal)) (m : LCMessage) (rest : List MsgItem), fs ≠ [] →
      assemble (fragItems fs ++ MsgItem.msg m :: rest)
        = create_ai_message (buildDict fs) :: m :: assemble rest)
    ∧ (∀ (m : LCMessage) (rest : List MsgItem),
        assemble (MsgItem.msg m :: rest) = m :: assemble rest)
    ∧ (∀ fs : List (String × FragVal), fs ≠ [] →
        assemble (fragItems fs) = [create_ai_message (buildDict fs)]) := by
  refine ⟨?_, ?_, ?_⟩
  · intro fs m rest h
    have hb := buildDict_isEmpty fs h
    unfold assemble
    rw [assembleGo_frags]
    show assembleGo [] (buildDict fs) (MsgItem.msg m :: rest) = _
    simp only [assembleGo, hb, if_false]
    rw [assembleGo_acc rest ([] ++ [create_ai_message (buildDict fs), m])]
    simp [assemble]
  · intro m rest
    unfold assemble
    simp only [assembleGo, List.isEmpty_nil, if_true]
    rw [assembleGo_acc rest ([] ++ [m])]
    simp
  · intro fs h
    have hb := buildDict_isEmpty fs h
    unfold assemble
    have h2 := assembleGo_frags fs [] ([] : List LCMessage) []
    rw [List.append_nil] at h2
    rw [h2]
    show assembleGo [] (buildDict fs) [] = _
    simp [assembleGo, hb]

/-- C4 witness: a concrete fragment run flushed before a complete
message, with the trailing flush equation of the empty remainder. -/
theorem c4_accumulator_flush_witness :
    ([("content", FragVal.str "part")] ≠ ([] : List (String × FragVal)))
    ∧ assemble (fragItems [("content", FragVal.str "part")]
          ++ MsgItem.msg (LCMessage.ai "full") :: [])
        = create_ai_message (buildDict [("content", FragVal.str "part")])
          :: LCMessage.ai "full" :: assemble [] :=
  ⟨List.cons_ne_nil _ _,
   c4_accumulator_flush.1 [("content", FragVal.str "part")] (LCMessage.ai "full") []
     (List.cons_ne_nil _ _)⟩

/-! ### Invocation facade (C5, C6) -/

theorem langchain_to_chat_message_content (m : LCMessage) (cm : ChatMessage)
    (h : langchain_to_chat_message m = .ok cm) : cm.content = m.content := by
  cases m with
  | human c => injection h with h; rw [← h]; rfl
  | ai c => injection h with h; rw [← h]; rfl
  | aiChunk c => injection h with h; rw [← h]; rfl
  | tool c n t => injection h with h; rw [← h]; rfl
  | unconvertible ty c => simp [langchain_to_chat_message] at h

/-- C5: for every /invoke request (known agent, input handling and the
engine call succeed) whose terminal event is a `values` event with a
nonempty, convertible message list, the returned ChatMessage's content
equals the content of the last message of that event's message list, and
the generated run id is attached to the returned message. -/
theorem c5_invoke_values (agents : List String) (agent_id : String) (u : UserInput)
    (eng : Engine) (run_id : String) (msgs : List LCMessage) (m : LCMessage) (cm : ChatMessage)
    (hA : agents.contains agent_id = true)
    (hH : ∃ p, handle_input u eng = .ok p)
    (hF : eng.invokeFails = false)
    (h1 : eng.invokeEvents.getLast? = some (InvokeEvent.values msgs))
    (h2 : msgs.getLast? = some m)
    (h3 : langchain_to_chat_message m = .ok cm) :
    ∃ out, invoke_endpoint agents agent_id u eng run_id = InvokeOutcome.ok out
      ∧ out.content = m.content
      ∧ out.run_id = some run_id := by
  obtain ⟨p, hp⟩ := hH
  refine ⟨{ cm with run_id := some run_id }, ?_, ?_, rfl⟩
  · unfold invoke_endpoint
    rw [if_pos hA, hp, hF]
    simp only [invokeResult, h1, h2, h3]
    rfl
  · show cm.content = m.content
    exact langchain_to_chat_message_content m cm h3

/-- C5 witness: concrete engine whose terminal event is a `values` event. -/
theorem c5_invoke_values_witness :
    ∃ out, invoke_endpoint ["research-assistant"] "research-assistant" { message := "hi" }
        valuesEngine "run-1" = InvokeOutcome.ok out
      ∧ out.content = (LCMessage.ai "answer").content
      ∧ out.run_id = some "run-1" :=
  c5_invoke_values ["research-assistant"] "research-assistant" { message := "hi" }
    valuesEngine "run-1" [LCMessage.ai "answer"] (LCMessage.ai "answer")
    { type := "ai", content := "answer" } rfl ⟨InputPayload.fresh "hi", rfl⟩ rfl rfl rfl rfl

/-- C6: for every /invoke request (known agent, input handling and the
engine call succeed), a terminal `updates` event carrying the interrupt
marker with a nonempty interrupt list yields an AI-role ChatMessage whose
content is the first interrupt's value (run id attached); a terminal
`updates` event without the interrupt marker is an unexpected response
shape surfaced as an internal 500 error. -/
theorem c6_invoke_interrupt (agents : List String) (agent_id : String) (u : UserInput)
    (eng : Engine) (run_id : String)
    (hA : agents.contains agent_id = true)
    (hH : ∃ p, handle_input u eng = .ok p)
    (hF : eng.invokeFails = false) :
    (∀ ivals v, eng.invokeEvents.getLast? = some (InvokeEvent.updates (some ivals)) →
        ivals.head? = some v →
        invoke_endpoint agents agent_id u eng run_id
          = InvokeOutcome.ok { type := "ai", content := v, name := none, run_id := some run_id })
    ∧ (eng.invokeEvents.getLast? = some (InvokeEvent.updates none) →
        invoke_endpoint agents agent_id u eng run_id
          = InvokeOutcome.httpError 500 "Unexpected error") := by
  obtain ⟨p, hp⟩ := hH
  constructor
  · intro ivals v h1 h2
    unfold invoke_endpoint
    rw [if_pos hA, hp, hF]
    simp only [invokeResult, h1, h2, langchain_to_chat_message]
    rfl
  · intro h1
    unfold invoke_endpoint
    rw [if_pos hA, hp, hF]
    simp only [invokeResult, h1]
    rfl

/-- C6 witness: concrete engine whose terminal event is an `updates`
event carrying one interrupt. -/
theorem c6_invoke_interrupt_witness :
    invoke_endpoint ["research-assistant"] "research-assistant" { message := "hi" }
        { invokeEvents := [InvokeEvent.updates (some ["Confirm weather check"])] } "run-1"
      = InvokeOutcome.ok { type := "ai", content := "Confirm weather check", name := none, run_id := some "run-1" } :=
  (c6_invoke_interrupt ["research-assistant"] "research-assistant" { message := "hi" }
    { invokeEvents := [InvokeEvent.updates (some ["Confirm weather check"])] } "run-1"
    rfl ⟨InputPayload.fresh "hi", rfl⟩ rfl).1 ["Confirm weather check"] "Confirm weather check"
    rfl rfl

/-! ### Node-update special cases (C7, C8) -/

theorem supervisorFilter_eq_of_getLast (msgs : List MsgItem) (a : MsgItem)
    (hl : (msgs.filter MsgItem.isAIMessage).getLast? = some a) :
    supervisorFilter msgs = [a] := by
  unfold supervisorFilter
  rw [hl]

theorem supervisorFilter_eq_of_none (msgs : List MsgItem)
    (hl : (msgs.filter MsgItem.isAIMessage).getLast? = none) :
    supervisorFilter msgs = msgs := by
  unfold supervisorFilter
  rw [hl]

theorem filter_singleton_of_pos (a : MsgItem) (ha : MsgItem.isAIMessage a = true) :
    [a].filter MsgItem.isAIMessage = [a] := by
  simp [List.filter, ha]

/-- C7: a node update from the node named "supervisor" surfaces at most
one assistant (AI-authored) candidate message — the last assistant
message of the update's message list; earlier assistant messages are
discarded. -/
theorem c7_supervisor_collapse (u : UpdVal) (msgs : List MsgItem)
    (h : getUpdateMessages u = .ok msgs) :
    ∃ out, collectNodeMessages "supervisor" u = .ok out
      ∧ (out.filter MsgItem.isAIMessage).length ≤ 1
      ∧ ∀ a, (msgs.filter MsgItem.isAIMessage).getLast? = some a →
          out.filter MsgItem.isAIMessage = [a] := by
  refine ⟨supervisorFilter msgs, by simp [collectNodeMessages, h], ?_, ?_⟩
  · cases hq : (msgs.filter MsgItem.isAIMessage).getLast? with
    | none =>
      rw [supervisorFilter_eq_of_none msgs hq, List.getLast?_eq_none_iff.mp hq]
      simp
    | some a =>
      have ha : MsgItem.isAIMessage a = true :=
        List.of_mem_filter (List.mem_of_getLast?_eq_some hq)
      rw [supervisorFilter_eq_of_getLast msgs a hq, filter_singleton_of_pos a ha]
      simp
  · intro a ha
    have hA : MsgItem.isAIMessage a = true :=
      List.of_mem_filter (List.mem_of_getLast?_eq_some ha)
    rw [supervisorFilter_eq_of_getLast msgs a ha, filter_singleton_of_pos a hA]

/-- C7 witness: a supervisor update with two AI messages and a tool
message surfaces exactly the last AI message. -/
theorem c7_supervisor_collapse_witness :
    ∃ out, collectNodeMessages "supervisor" supUpdate = .ok out
      ∧ (out.filter MsgItem.isAIMessage).length ≤ 1
      ∧ ∀ a, ((supMsgs.filter MsgItem.isAIMessage).getLast? = some a →
          out.filter MsgItem.isAIMessage = [a]) :=
  c7_supervisor_collapse supUpdate supMsgs rfl

/-- C8: a node update from a recognized sub-agent node (whose message
list starts with a message object) is surfaced as exactly one tool-role
message whose name tag is the node's name; its conversion to a
ChatMessage has role "tool", and no assistant (AI) candidate remains. -/
theorem c8_subagent_tool_message (node : String) (u : UpdVal) (msgs : List MsgItem)
    (m : LCMessage)
    (hn : node = "research_expert" ∨ node = "math_expert")
    (h : getUpdateMessages u = .ok msgs)
    (hh : msgs.head? = some (MsgItem.msg m)) :
    collectNodeMessages node u = .ok [MsgItem.msg (LCMessage.tool m.content node "")]
    ∧ langchain_to_chat_message (LCMessage.tool m.content node "")
        = .ok { type := "tool", content := m.content, name := some node, run_id := none }
    ∧ [MsgItem.msg (LCMessage.tool m.content node "")].filter MsgItem.isAIMessage = [] := by
  rcases hn with rfl | rfl
  · exact ⟨by simp [collectNodeMessages, h, subAgentMessages, hh], rfl, rfl⟩
  · exact ⟨by simp [collectNodeMessages, h, subAgentMessages, hh], rfl, rfl⟩

/-- C8 witness: a research_expert update surfaced as a tool message. -/
theorem c8_subagent_tool_message_witness :
    collectNodeMessages "research_expert" subAgentUpdate
      = .ok [MsgItem.msg (LCMessage.tool (LCMessage.ai "found it").content "research_expert" "")]
    ∧ langchain_to_chat_message (LCMessage.tool (LCMessage.ai "found it").content "research_expert" "")
        = .ok { type := "tool", content := (LCMessage.ai "found it").content, name := some "research_expert", run_id := none }
    ∧ [MsgItem.msg (LCMessage.tool (LCMessage.ai "found it").content "research_expert" "")].filter
        MsgItem.isAIMessage = [] :=
  c8_subagent_tool_message "research_expert" subAgentUpdate
    [MsgItem.msg (LCMessage.ai "found it")] (LCMessage.ai "found it") (Or.inl rfl) rfl rfl

/-! ### Input-echo suppression (C9) and sub-agent empty update (C10) -/

theorem message_generator_frames_cases (agents : List String) (agent_id : String)
    (si : StreamInput) (eng : Engine) (run_id : String) (f : Frame)
    (hf : f ∈ (message_generator agents agent_id si eng run_id).frames) :
    f = Frame.done ∨ f = Frame.errorFrame "Internal server error"
      ∨ f ∈ (runEvents si run_id eng.events).1 := by
  unfold message_generator at hf
  by_cases hA : agents.contains agent_id = true
  · rw [if_pos hA] at hf
    cases hh : handle_input si.toUserInput eng with
    | error e => rw [hh] at hf; simp at hf
    | ok p =>
      rw [hh] at hf
      simp only at hf
      cases herr : (runEvents si run_id eng.events).2 with
      | some e =>
        simp only [herr] at hf
        rcases List.mem_append.mp hf with h | h
        · exact Or.inr (Or.inr h)
        · rcases List.mem_cons.mp h with rfl | h
          · exact Or.inr (Or.inl rfl)
          · rcases List.mem_singleton.mp h with rfl
            exact Or.inl rfl
      | none =>
        simp only [herr] at hf
        cases hsf : eng.streamFails with
        | true =>
          simp only [hsf] at hf
          rcases List.mem_append.mp hf with h | h
          · exact Or.inr (Or.inr h)
          · rcases List.mem_cons.mp h with rfl | h
            · exact Or.inr (Or.inl rfl)
            · rcases List.mem_singleton.mp h with rfl
              exact Or.inl rfl
        | false =>
          simp only [hsf] at hf
          rcases List.mem_append.mp hf with h | h
          · exact Or.inr (Or.inr h)
          · rcases List.mem_singleton.mp h with rfl
            exact Or.inl rfl
  · rw [if_neg hA] at hf
    simp at hf

/-- C9: no `message` frame emitted by a /stream request carries a
human-role message whose content equals the request's input message: the
engine's echo of the input is suppressed for the whole stream. -/
theorem c9_no_input_echo (agents : List String) (agent_id : String) (si : StreamInput)
    (eng : Engine) (run_id : String) :
    ((message_generator agents agent_id si eng run_id).frames.all
      (notEchoFrame si.message)) = true := by
  rw [List.all_eq_true]
  intro f hf
  rcases message_generator_frames_cases agents agent_id si eng run_id f hf with rfl | rfl | h
  · rfl
  · rfl
  · exact goodFrame_notEcho si.message f (runEvents_mem si run_id eng.events f h)

theorem runEvents_append (si : StreamInput) (r : String) (l1 l2 : List StreamEvent)
    (h : (runEvents si r l1).2 = none) :
    runEvents si r (l1 ++ l2)
      = ((runEvents si r l1).1 ++ (runEvents si r l2).1, (runEvents si r l2).2) := by
  induction l1 with
  | nil => simp [runEvents]
  | cons ev rest ih =>
    cases hp : processEvent si r ev with
    | mk fs err =>
      cases err with
      | some e =>
        simp only [runEvents, hp] at h
        exact Option.noConfusion h
      | none =>
        simp only [runEvents, hp] at h
        simp only [List.cons_append, runEvents, hp, List.append_eq]
        rw [ih h]
        simp [List.append_assoc]

theorem collectNodeMessages_subagent_empty (node : String) (u : UpdVal)
    (hn : node = "research_expert" ∨ node = "math_expert")
    (hu : getUpdateMessages u = .ok []) :
    collectNodeMessages node u = .error PyErr.indexError := by
  rcases hn with rfl | rfl <;> simp [collectNodeMessages, hu, subAgentMessages]

theorem collectNewMessages_subagent_empty (node : String) (u : UpdVal)
    (hn : node = "research_expert" ∨ node = "math_expert")
    (hu : getUpdateMessages u = .ok []) :
    collectNewMessages [(node, u)] = .error PyErr.indexError := by
  simp [collectNewMessages, collectNodeMessages_subagent_empty node u hn hu]

theorem processEvent_subagent_empty (si : StreamInput) (r node : String) (u : UpdVal)
    (hn : node = "research_expert" ∨ node = "math_expert")
    (hu : getUpdateMessages u = .ok []) :
    ∃ e, processEvent si r (StreamEvent.updates [(node, u)])
      = ((updDiagPhase si r [(node, u)]).1, some e) := by
  cases hd : (updDiagPhase si r [(node, u)]).2 with
  | some e => exact ⟨e, by simp [processEvent, hd]⟩
  | none =>
    exact ⟨PyErr.indexError, by
      simp [processEvent, hd, collectNewMessages_subagent_empty node u hn hu]⟩

/-- C10: a node-update event from a sub-agent node whose delta has an
empty or absent message list makes the reducer index the empty list:
an exception is raised, no `message` frame is surfaced for that event
(only its diagnostic frames precede the failure), and the stream
terminates with the `error` frame and the `[DONE]` sentinel instead of
continuing with the later events `evs2`; the exception is not re-raised. -/
theorem c10_subagent_empty_aborts (agents : List String) (agent_id : String)
    (si : StreamInput) (eng : Engine) (run_id node : String) (u : UpdVal)
    (evs1 evs2 : List StreamEvent)
    (hA : agents.contains agent_id = true)
    (hH : ∃ p, handle_input si.toUserInput eng = .ok p)
    (hn : node = "research_expert" ∨ node = "math_expert")
    (hu : getUpdateMessages u = .ok [])
    (hE : eng.events = evs1 ++ StreamEvent.updates [(node, u)] :: evs2)
    (h1 : (runEvents si run_id evs1).2 = none) :
    (message_generator agents agent_id si eng run_id).frames
        = (runEvents si run_id evs1).1 ++ (updDiagPhase si run_id [(node, u)]).1
          ++ [Frame.errorFrame "Internal server error", Frame.done]
    ∧ (∀ f ∈ (updDiagPhase si run_id [(node, u)]).1, f.isDiagnostic = true)
    ∧ (message_generator agents agent_id si eng run_id).escaped = none := by
  obtain ⟨p, hp⟩ := hH
  obtain ⟨e, hpe⟩ := processEvent_subagent_empty si run_id node u hn hu
  have hshort : runEvents si run_id (StreamEvent.updates [(node, u)] :: evs2)
      = ((updDiagPhase si run_id [(node, u)]).1, some e) := by
    simp only [runEvents, hpe]
  have hrun : runEvents si run_id eng.events
      = ((runEvents si run_id evs1).1 ++ (updDiagPhase si run_id [(node, u)]).1, some e) := by
    rw [hE, runEvents_append si run_id evs1 _ h1, hshort]
  rw [message_generator_ok agents agent_id si eng run_id p hA hp, hrun]
  refine ⟨?_, fun f hf => updDiagPhase_mem si run_id [(node, u)] f hf, ?_⟩
  · rw [if_neg (by simp)]
  · rw [if_neg (by simp)]

/-- C10 witness: a concrete stream whose first event is an empty
sub-agent update, followed by an event that would surface a message. -/
theorem c10_subagent_empty_aborts_witness :
    (message_generator ["research-assistant"] "research-assistant" plainStreamInput
        emptySubAgentEngine "run-1").frames
      = (runEvents plainStreamInput "run-1" []).1
        ++ (updDiagPhase plainStreamInput "run-1" [("research_expert", emptySubAgentUpd)]).1
        ++ [Frame.errorFrame "Internal server error", Frame.done]
    ∧ (∀ f ∈ (updDiagPhase plainStreamInput "run-1"
        [("research_expert", emptySubAgentUpd)]).1, f.isDiagnostic = true)
    ∧ (message_generator ["research-assistant"] "research-assistant" plainStreamInput
        emptySubAgentEngine "run-1").escaped = none :=
  c10_subagent_empty_aborts ["research-assistant"] "research-assistant" plainStreamInput
    emptySubAgentEngine "run-1" "research_expert" emptySubAgentUpd []
    [StreamEvent.custom (MsgItem.msg (LCMessage.ai "never"))] rfl
    ⟨InputPayload.fresh "hi", rfl⟩ (Or.inl rfl) rfl rfl rfl
